import Mathlib

/-!
Verification of the single-turn conversational client in src/main.py.

The program is a thin wrapper: `ChatBotAgent` stores a configuration, builds a
transport binding (an `AzureChatCompletion` service wrapped by a
`ChatCompletionAgent`) at construction time, and exposes one operation
`get_response` that performs a single network round trip and returns the
textual content field of the reply envelope.  The entry point `main` loads the
configuration from the environment, builds one client, sends one fixed prompt
and prints the reply; the top level (`asyncio.run(main())`) exits non-zero on
any unhandled error.

The `semantic_kernel` library is an external dependency, not part of this
repository; its behavior (the transport binding and its configuration
validation) is modelled from the specification and marked
`Modelled from the spec:` below.  Everything else is embedded directly from
src/main.py.  Stateful Python code is embedded by explicit state passing, and
every operation that could touch the network additionally returns the list of
messages it actually sent over the network, so that claims about network I/O
become statements about that trace.
-/

/-- Error taxonomy of the specification (section 7): ConfigurationError,
AuthenticationError, TransientNetworkError, UpstreamError.  Each carries a
diagnostic message so that unmodified propagation is the identity on values. -/
inductive ChatError where
  | config (msg : String)
  | auth (msg : String)
  | transientNetwork (msg : String)
  | upstream (msg : String)
deriving DecidableEq, Repr

/-- The reply envelope: the full structured response from the remote service,
of which only the textual `content` field is consumed by the program. -/
structure ReplyEnvelope where
  content : String
  role : String
  modelId : String
deriving DecidableEq, Repr

/-- Modelled from the spec: the behavior of the remote completion service, an
external collaborator.  For a given message it either returns a complete reply
envelope or fails with an error (authentication, transient network, upstream). -/
def RemoteService : Type := String → Except ChatError ReplyEnvelope

/-- The transport binding constructed by `AzureChatCompletion(...)` in
`_initialize_agent` (src/main.py lines 32-37): it is parameterized by endpoint,
credential, deployment identifier and protocol version.  The three required
fields are `Option String` because `main` passes values obtained from
`os.getenv`, which yields `None` when a key is absent. -/
structure AzureChatCompletion where
  endpoint : Option String
  api_key : Option String
  deployment_name : Option String
  api_version : String
deriving DecidableEq, Repr

/-- The agent wrapper constructed by `ChatCompletionAgent(...)` in
`_initialize_agent` (src/main.py lines 38-42): a reference to the transport
binding plus the display name and the system instructions. -/
structure ChatCompletionAgent where
  service : AzureChatCompletion
  name : String
  instructions : String
deriving DecidableEq, Repr

/-- The client object of src/main.py lines 12-49: the stored configuration
fields assigned in `__init__` plus the `agent` attribute, which is `None`
until `_initialize_agent` assigns it. -/
structure ChatBotAgent where
  endpoint : Option String
  api_key : Option String
  deployment_name : Option String
  api_version : String
  agent_name : String
  instructions : String
  agent : Option ChatCompletionAgent
deriving DecidableEq, Repr

/-- A required configuration value is missing when it is absent (`None`) or the
empty string. -/
def requiredMissing : Option String → Bool
  | none => true
  | some s => s.isEmpty

/-- Modelled from the spec: the transport binding requires endpoint, credential
and deployment identifier to be non-empty for any request to succeed
(specification section 3 invariant). -/
def AzureChatCompletion.configValid (s : AzureChatCompletion) : Bool :=
  !requiredMissing s.endpoint && !requiredMissing s.api_key &&
    !requiredMissing s.deployment_name

/-- Modelled from the spec: constructing the `AzureChatCompletion` transport
binding (external `semantic_kernel` code) is in-memory object creation with no
network I/O at construction time (specification section 4.1).  The first
component is the list of messages sent over the network, empty here. -/
def AzureChatCompletion.create (endpoint api_key deployment_name : Option String)
    (api_version : String) : List String × AzureChatCompletion :=
  ([], { endpoint := endpoint, api_key := api_key,
         deployment_name := deployment_name, api_version := api_version })

/-- Modelled from the spec: constructing the `ChatCompletionAgent` wrapper
(external `semantic_kernel` code) is in-memory object creation carrying the
display name and system instructions plus a reference to the transport binding;
no network I/O at construction time. -/
def ChatCompletionAgent.create (service : AzureChatCompletion) (name : String)
    (instructions : String) : List String × ChatCompletionAgent :=
  ([], { service := service, name := name, instructions := instructions })

/-- Embeds `ChatBotAgent._initialize_agent` (src/main.py lines 28-42): builds
the `AzureChatCompletion` service from the stored configuration, builds the
`ChatCompletionAgent` from that service and the stored name and instructions,
and assigns the result to `self.agent`.  Returns the network messages sent
together with the updated object. -/
def ChatBotAgent.init_agent (self : ChatBotAgent) : List String × ChatBotAgent :=
  let sc := AzureChatCompletion.create self.endpoint self.api_key
    self.deployment_name self.api_version
  let ac := ChatCompletionAgent.create sc.2 self.agent_name self.instructions
  (sc.1 ++ ac.1, { self with agent := some ac.2 })

/-- The default value of the `agent_name` parameter of `ChatBotAgent.__init__`
(src/main.py line 17). -/
def defaultAgentName : String := "SK-Assistant"

/-- The default value of the `instructions` parameter of
`ChatBotAgent.__init__` (src/main.py line 17). -/
def defaultInstructions : String := "You are a helpful assistant."

/-- Embeds `ChatBotAgent.__init__` (src/main.py lines 17-26): stores the six
configuration values, sets `agent` to `None`, then runs
`_initialize_agent`.  Returns the network messages sent together with the
constructed object. -/
def ChatBotAgent.init (endpoint api_key deployment_name : Option String)
    (api_version agent_name instructions : String) : List String × ChatBotAgent :=
  ChatBotAgent.init_agent
    { endpoint := endpoint, api_key := api_key,
      deployment_name := deployment_name, api_version := api_version,
      agent_name := agent_name, instructions := instructions, agent := none }

/-- A call of `ChatBotAgent.__init__` with the two optional parameters left at
their defaults, exactly as `main` calls it (src/main.py line 62). -/
def ChatBotAgent.initDefault (endpoint api_key deployment_name : Option String)
    (api_version : String) : List String × ChatBotAgent :=
  ChatBotAgent.init endpoint api_key deployment_name api_version
    defaultAgentName defaultInstructions

/-- Trace of one `get_response` call: how many times `self.agent.get_response`
(the transport) was invoked, and which messages were sent over the network. -/
structure TransportTrace where
  agentCalls : Nat
  sent : List String
deriving DecidableEq, Repr

/-- Modelled from the spec: the transport call performed by the external
`ChatCompletionAgent.get_response`.  An empty required configuration field
fails with ConfigurationError before any network attempt (specification
section 8); otherwise exactly one network round trip is performed against the
remote service and its reply envelope, or its error, is returned unmodified
(no retries, specification section 7).  The first component lists the messages
actually sent over the network. -/
def ChatCompletionAgent.transportCall (a : ChatCompletionAgent)
    (svc : RemoteService) (message : String) :
    List String × Except ChatError ReplyEnvelope :=
  if a.service.configValid then ([message], svc message)
  else ([], Except.error (ChatError.config "missing required configuration"))

/-- Embeds `ChatBotAgent.get_response` (src/main.py lines 44-49): the body
awaits exactly one call of `self.agent.get_response` with the message and
returns `response.content`, the textual content field of the reply envelope.
The method assigns no attribute, so the returned object state is the receiver
itself.  The `none` branch corresponds to `self.agent` being `None`, which
`__init__` makes unreachable (no theorem below depends on that branch). -/
def ChatBotAgent.get_response (self : ChatBotAgent) (svc : RemoteService)
    (message : String) :
    ChatBotAgent × TransportTrace × Except ChatError String :=
  match self.agent with
  | some a =>
      let r := a.transportCall svc message
      (self, { agentCalls := 1, sent := r.1 },
        Except.map ReplyEnvelope.content r.2)
  | none =>
      (self, { agentCalls := 0, sent := [] },
        Except.error (ChatError.config "agent is None"))

/-- The process environment: a partial map from variable names to values, as
read by `os.getenv`. -/
def Env : Type := String → Option String

/-- The fixed prompt sent by `main` (src/main.py line 65). -/
def fixedPrompt : String := "Write a haiku about Semantic Kernel."

/-- The default protocol version used when `AZURE_OPENAI_API_VERSION` is absent
(src/main.py line 59). -/
def defaultApiVersion : String := "2024-02-15-preview"

/-- Embeds the configuration loading and client construction of `main`
(src/main.py lines 56-62): the three required keys are read with `os.getenv`
with no default, the version key with the fixed default, and the four values
are passed directly into the `ChatBotAgent` constructor. -/
def mainClient (env : Env) : List String × ChatBotAgent :=
  ChatBotAgent.initDefault (env "AZURE_OPENAI_ENDPOINT")
    (env "AZURE_OPENAI_API_KEY") (env "AZURE_OPENAI_DEPLOYMENT_NAME")
    ((env "AZURE_OPENAI_API_VERSION").getD defaultApiVersion)

/-- Embeds `main` (src/main.py lines 51-66): load the configuration, build the
client, send the one fixed prompt, and on success produce what
`print(response)` writes to stdout, namely the reply content followed by a
newline.  Errors pass through untouched: `main` contains no handler.  The
first component collects every message sent over the network during the run. -/
def mainRun (env : Env) (svc : RemoteService) :
    List String × Except ChatError String :=
  let c := mainClient env
  let r := c.2.get_response svc fixedPrompt
  (c.1 ++ r.2.1.sent, Except.map (fun response => response ++ "\n") r.2.2)

/-- Embeds the top-level invocation `asyncio.run(main())` (src/main.py
line 69): on success the printed line is the stdout and the process exits 0;
an unhandled error propagates out of `main` unmodified and the interpreter
terminates with exit status 1.  Result: (network messages sent, stdout,
exit code, the propagated error if any). -/
def runProgram (env : Env) (svc : RemoteService) :
    List String × String × Nat × Option ChatError :=
  match mainRun env svc with
  | (sent, Except.ok out) => (sent, out, 0, none)
  | (sent, Except.error e) => (sent, "", 1, some e)

/-- Helper: unfolding of the constructor with the optional parameters left at
their defaults.  It sends nothing over the network and returns the fully built
in-memory object. -/
theorem initDefault_eq (e k d : Option String) (v : String) :
    ChatBotAgent.initDefault e k d v =
      ([], { endpoint := e, api_key := k, deployment_name := d,
             api_version := v, agent_name := defaultAgentName,
             instructions := defaultInstructions,
             agent := some { service := { endpoint := e, api_key := k,
                                          deployment_name := d,
                                          api_version := v },
                             name := defaultAgentName,
                             instructions := defaultInstructions } }) := rfl

/-- Helper: unfolding of the constructor with all six parameters explicit. -/
theorem init_eq (e k d : Option String) (v n i : String) :
    ChatBotAgent.init e k d v n i =
      ([], { endpoint := e, api_key := k, deployment_name := d,
             api_version := v, agent_name := n, instructions := i,
             agent := some { service := { endpoint := e, api_key := k,
                                          deployment_name := d,
                                          api_version := v },
                             name := n, instructions := i } }) := rfl

/-- Helper: the respond method assigns no attribute of the object, so the
object state it returns is the receiver itself. -/
theorem get_response_preserves (c : ChatBotAgent) (svc : RemoteService)
    (m : String) : (c.get_response svc m).1 = c := by
  cases hc : c.agent <;> simp [ChatBotAgent.get_response, hc]

/-- Mocked remote service that returns reply text "T" for any input. -/
def mockSvcT : RemoteService := fun _ =>
  Except.ok { content := "T", role := "assistant", modelId := "gpt-x" }

/-- Mocked remote service that times out on every request. -/
def mockSvcTimeout : RemoteService := fun _ =>
  Except.error (ChatError.transientNetwork "timeout")

/-- A concrete client built from a valid configuration. -/
def clientX : ChatBotAgent :=
  (ChatBotAgent.initDefault (some "https://example") (some "k")
    (some "gpt-x") defaultApiVersion).2

/-- The environment of the end-to-end scenario of the specification. -/
def envE2E : Env := fun k =>
  if k = "AZURE_OPENAI_ENDPOINT" then some "https://example"
  else if k = "AZURE_OPENAI_API_KEY" then some "k"
  else if k = "AZURE_OPENAI_DEPLOYMENT_NAME" then some "gpt-x"
  else if k = "AZURE_OPENAI_API_VERSION" then some "2024-02-15-preview"
  else none

/-- The content returned by the mocked service in the end-to-end scenario. -/
def haiku : String :=
  "Kernel hums below / Plugins weave through logic\x27s thread / Answers bloom in light."

/-- Mocked remote service of the end-to-end scenario. -/
def svcE2E : RemoteService := fun _ =>
  Except.ok { content := haiku, role := "assistant", modelId := "gpt-x" }

/-- An environment with the version key absent and the required keys set. -/
def envNoVersion : Env := fun k =>
  if k = "AZURE_OPENAI_ENDPOINT" then some "https://example"
  else if k = "AZURE_OPENAI_API_KEY" then some "k"
  else if k = "AZURE_OPENAI_DEPLOYMENT_NAME" then some "gpt-x"
  else none

/-- An environment with the endpoint key unset. -/
def envNoEndpoint : Env := fun k =>
  if k = "AZURE_OPENAI_API_KEY" then some "k"
  else if k = "AZURE_OPENAI_DEPLOYMENT_NAME" then some "gpt-x"
  else none

/-- C1: for every reply envelope produced by the underlying transport, the
respond operation (ChatBotAgent.get_response) returns exactly the textual
content field of that envelope and nothing else. -/
theorem C1_respond_returns_content_exactly (c : ChatBotAgent)
    (svc : RemoteService) (m : String) (a : ChatCompletionAgent)
    (r : ReplyEnvelope) (hA : c.agent = some a)
    (hV : a.service.configValid = true) (hS : svc m = Except.ok r) :
    (c.get_response svc m).2.2 = Except.ok r.content := by
  simp [ChatBotAgent.get_response, hA, ChatCompletionAgent.transportCall, hV,
    hS, Except.map]

/-- C1 witness: with a mocked transport returning reply text "T" for any
input, respond("anything") returns exactly "T". -/
theorem C1_witness :
    (clientX.get_response mockSvcT "anything").2.2 = Except.ok "T" :=
  C1_respond_returns_content_exactly clientX mockSvcT "anything"
    { service := { endpoint := some "https://example", api_key := some "k",
                   deployment_name := some "gpt-x",
                   api_version := defaultApiVersion },
      name := defaultAgentName, instructions := defaultInstructions }
    { content := "T", role := "assistant", modelId := "gpt-x" } rfl rfl rfl

/-- C2: with any of endpoint, credential or deployment identifier empty or
absent, respond fails with ConfigurationError and no message is sent over the
network (no network attempt). -/
theorem C2_empty_config_fails_before_network (e k d : Option String)
    (v : String) (svc : RemoteService) (m : String)
    (h : requiredMissing e = true ∨ requiredMissing k = true ∨
      requiredMissing d = true) :
    (((ChatBotAgent.initDefault e k d v).2.get_response svc m).2.2 =
        Except.error (ChatError.config "missing required configuration")) ∧
      ((ChatBotAgent.initDefault e k d v).2.get_response svc m).2.1.sent =
        [] := by
  have hv : AzureChatCompletion.configValid ⟨e, k, d, v⟩ = false := by
    rcases h with h | h | h <;> simp [AzureChatCompletion.configValid, h]
  simp [initDefault_eq, ChatBotAgent.get_response,
    ChatCompletionAgent.transportCall, hv, Except.map]

/-- C2 witness: empty endpoint; respond fails with ConfigurationError and
nothing is sent over the network. -/
theorem C2_witness :
    (((ChatBotAgent.initDefault (some "") (some "k") (some "gpt-x")
          defaultApiVersion).2.get_response mockSvcT "hello").2.2 =
        Except.error (ChatError.config "missing required configuration")) ∧
      ((ChatBotAgent.initDefault (some "") (some "k") (some "gpt-x")
          defaultApiVersion).2.get_response mockSvcT "hello").2.1.sent = [] :=
  C2_empty_config_fails_before_network (some "") (some "k") (some "gpt-x")
    defaultApiVersion mockSvcT "hello" (Or.inl rfl)

/-- C3: for every valid configuration, construction succeeds and performs no
network I/O: the network trace is empty and the result is exactly the
in-memory client record with the transport binding and agent wrapper built. -/
theorem C3_construction_no_network (e k d : Option String) (v : String)
    (h : requiredMissing e = false ∧ requiredMissing k = false ∧
      requiredMissing d = false ∧ v ≠ "") :
    (ChatBotAgent.initDefault e k d v).1 = [] ∧
      (ChatBotAgent.initDefault e k d v).2 =
        { endpoint := e, api_key := k, deployment_name := d, api_version := v,
          agent_name := defaultAgentName, instructions := defaultInstructions,
          agent := some { service := { endpoint := e, api_key := k,
                                       deployment_name := d,
                                       api_version := v },
                          name := defaultAgentName,
                          instructions := defaultInstructions } } :=
  ⟨rfl, rfl⟩

/-- C3 witness: a concrete valid configuration; construction yields the
in-memory record and sends nothing over the network. -/
theorem C3_witness :
    (ChatBotAgent.initDefault (some "https://example") (some "k")
        (some "gpt-x") defaultApiVersion).1 = [] ∧
      (ChatBotAgent.initDefault (some "https://example") (some "k")
          (some "gpt-x") defaultApiVersion).2 =
        { endpoint := some "https://example", api_key := some "k",
          deployment_name := some "gpt-x", api_version := defaultApiVersion,
          agent_name := defaultAgentName, instructions := defaultInstructions,
          agent := some { service := { endpoint := some "https://example",
                                       api_key := some "k",
                                       deployment_name := some "gpt-x",
                                       api_version := defaultApiVersion },
                          name := defaultAgentName,
                          instructions := defaultInstructions } } :=
  C3_construction_no_network (some "https://example") (some "k")
    (some "gpt-x") defaultApiVersion ⟨rfl, rfl, rfl, by decide⟩

/-- C4: an error raised during the fixed run sequence propagates to the top
level unmodified, with no handler catching, transforming or retrying, and the
process terminates with a non-zero exit status. -/
theorem C4_error_propagates_unmodified (env : Env) (svc : RemoteService)
    (e : ChatError)
    (h : ((mainClient env).2.get_response svc fixedPrompt).2.2 =
      Except.error e) :
    (mainRun env svc).2 = Except.error e ∧
      (runProgram env svc).2.2.1 = 1 ∧
      (runProgram env svc).2.2.2 = some e := by
  have hm : (mainRun env svc).2 = Except.error e := by
    simp [mainRun, h, Except.map]
  refine ⟨hm, ?_⟩
  rcases hr : mainRun env svc with ⟨sent, res⟩
  rw [hr] at hm
  simp only at hm
  subst hm
  simp [runProgram, hr]

/-- C4 witness: a timeout from the mocked transport reaches the top level as
the same TransientNetworkError and the exit status is 1. -/
theorem C4_witness :
    (mainRun envE2E mockSvcTimeout).2 =
        Except.error (ChatError.transientNetwork "timeout") ∧
      (runProgram envE2E mockSvcTimeout).2.2.1 = 1 ∧
      (runProgram envE2E mockSvcTimeout).2.2.2 =
        some (ChatError.transientNetwork "timeout") :=
  C4_error_propagates_unmodified envE2E mockSvcTimeout
    (ChatError.transientNetwork "timeout") rfl

/-- C5: each respond call invokes the transport exactly once and sends exactly
one network message, and the single transport outcome, success or failure, is
returned with no retry: the result is exactly the content projection of that
one transport result. -/
theorem C5_transport_invoked_once (c : ChatBotAgent) (svc : RemoteService)
    (m : String) (a : ChatCompletionAgent) (hA : c.agent = some a)
    (hV : a.service.configValid = true) :
    (c.get_response svc m).2.1.agentCalls = 1 ∧
      (c.get_response svc m).2.1.sent = [m] ∧
      (c.get_response svc m).2.2 =
        Except.map ReplyEnvelope.content (svc m) := by
  simp [ChatBotAgent.get_response, hA, ChatCompletionAgent.transportCall, hV]

/-- C5 witness: with a mocked transport that times out, respond propagates the
TransientNetworkError with exactly one transport invocation and one sent
message. -/
theorem C5_witness :
    (clientX.get_response mockSvcTimeout "hi").2.1.agentCalls = 1 ∧
      (clientX.get_response mockSvcTimeout "hi").2.1.sent = ["hi"] ∧
      (clientX.get_response mockSvcTimeout "hi").2.2 =
        Except.error (ChatError.transientNetwork "timeout") :=
  C5_transport_invoked_once clientX mockSvcTimeout "hi"
    { service := { endpoint := some "https://example", api_key := some "k",
                   deployment_name := some "gpt-x",
                   api_version := defaultApiVersion },
      name := defaultAgentName, instructions := defaultInstructions } rfl rfl

/-- C6: end-to-end run of the specification scenario: exactly the one fixed
prompt is sent over the network, stdout is exactly the returned content
followed by a newline, the exit code is 0 and no error reaches the top
level. -/
theorem C6_end_to_end :
    runProgram envE2E svcE2E = ([fixedPrompt], haiku ++ "\n", 0, none) := rfl

/-- C7: when the optional configuration values are absent, the fixed defaults
are used (version "2024-02-15-preview", display name "SK-Assistant",
instructions "You are a helpful assistant."), while the required keys receive
no default: those client fields are exactly the environment lookups. -/
theorem C7_defaults (env : Env) (h : env "AZURE_OPENAI_API_VERSION" = none) :
    (mainClient env).2.api_version = "2024-02-15-preview" ∧
      (mainClient env).2.agent_name = "SK-Assistant" ∧
      (mainClient env).2.instructions = "You are a helpful assistant." ∧
      (mainClient env).2.endpoint = env "AZURE_OPENAI_ENDPOINT" ∧
      (mainClient env).2.api_key = env "AZURE_OPENAI_API_KEY" ∧
      (mainClient env).2.deployment_name =
        env "AZURE_OPENAI_DEPLOYMENT_NAME" := by
  refine ⟨?_, rfl, rfl, rfl, rfl, rfl⟩
  simp [mainClient, initDefault_eq, h, defaultApiVersion]

/-- C7 witness: with the version key absent and the required keys set, the
built client carries the three default values and the looked-up required
values. -/
theorem C7_witness :
    (mainClient envNoVersion).2.api_version = "2024-02-15-preview" ∧
      (mainClient envNoVersion).2.agent_name = "SK-Assistant" ∧
      (mainClient envNoVersion).2.instructions =
        "You are a helpful assistant." ∧
      (mainClient envNoVersion).2.endpoint =
        envNoVersion "AZURE_OPENAI_ENDPOINT" ∧
      (mainClient envNoVersion).2.api_key =
        envNoVersion "AZURE_OPENAI_API_KEY" ∧
      (mainClient envNoVersion).2.deployment_name =
        envNoVersion "AZURE_OPENAI_DEPLOYMENT_NAME" :=
  C7_defaults envNoVersion rfl

/-- C8: respond leaves the client object completely unchanged (every field,
including the agent handle), so successive calls on one client are
independent: a second call after a first behaves exactly as a first call
would. -/
theorem C8_respond_leaves_client_unchanged (c : ChatBotAgent)
    (svc : RemoteService) (m m2 : String) :
    (c.get_response svc m).1 = c ∧
      (c.get_response svc m).1.get_response svc m2 =
        c.get_response svc m2 := by
  have h1 := get_response_preserves c svc m
  exact ⟨h1, by rw [h1]⟩

/-- C9: with a required environment key unset, the entry point raises no
configuration error and substitutes no default: the absent value flows into
the constructor unchanged, and the failure of the run is exactly the
ConfigurationError produced in the transport layer, with nothing sent over
the network. -/
theorem C9_missing_env_passthrough (env : Env) (svc : RemoteService)
    (h : env "AZURE_OPENAI_ENDPOINT" = none ∨
      env "AZURE_OPENAI_API_KEY" = none ∨
      env "AZURE_OPENAI_DEPLOYMENT_NAME" = none) :
    (mainClient env).2.endpoint = env "AZURE_OPENAI_ENDPOINT" ∧
      (mainClient env).2.api_key = env "AZURE_OPENAI_API_KEY" ∧
      (mainClient env).2.deployment_name =
        env "AZURE_OPENAI_DEPLOYMENT_NAME" ∧
      (mainRun env svc).2 =
        Except.error (ChatError.config "missing required configuration") ∧
      ((mainClient env).2.get_response svc fixedPrompt).2.1.sent = [] := by
  have hv : AzureChatCompletion.configValid
      ⟨env "AZURE_OPENAI_ENDPOINT", env "AZURE_OPENAI_API_KEY",
        env "AZURE_OPENAI_DEPLOYMENT_NAME",
        (env "AZURE_OPENAI_API_VERSION").getD defaultApiVersion⟩ = false := by
    rcases h with h | h | h <;>
      simp [AzureChatCompletion.configValid, h, requiredMissing]
  refine ⟨rfl, rfl, rfl, ?_, ?_⟩ <;>
    simp [mainRun, mainClient, initDefault_eq, ChatBotAgent.get_response,
      ChatCompletionAgent.transportCall, hv, Except.map]

/-- C9 witness: endpoint key unset; the client field is `none`, the run fails
with the transport layer ConfigurationError, and nothing is sent over the
network. -/
theorem C9_witness :
    (mainClient envNoEndpoint).2.endpoint =
        envNoEndpoint "AZURE_OPENAI_ENDPOINT" ∧
      (mainClient envNoEndpoint).2.api_key =
        envNoEndpoint "AZURE_OPENAI_API_KEY" ∧
      (mainClient envNoEndpoint).2.deployment_name =
        envNoEndpoint "AZURE_OPENAI_DEPLOYMENT_NAME" ∧
      (mainRun envNoEndpoint mockSvcT).2 =
        Except.error (ChatError.config "missing required configuration") ∧
      ((mainClient envNoEndpoint).2.get_response mockSvcT
          fixedPrompt).2.1.sent = [] :=
  C9_missing_env_passthrough envNoEndpoint mockSvcT (Or.inl rfl)

/-- C10: whenever construction returns, the agent handle is bound (not none)
to a transport configured with exactly the stored endpoint, credential,
deployment identifier and version, carrying the stored display name and
instructions, and the handle is still bound at entry to any subsequent
respond call. -/
theorem C10_agent_invariant (e k d : Option String) (v n i : String)
    (svc : RemoteService) (m : String) :
    (ChatBotAgent.init e k d v n i).2.agent =
        some { service := { endpoint := (ChatBotAgent.init e k d v n i).2.endpoint,
                            api_key := (ChatBotAgent.init e k d v n i).2.api_key,
                            deployment_name :=
                              (ChatBotAgent.init e k d v n i).2.deployment_name,
                            api_version :=
                              (ChatBotAgent.init e k d v n i).2.api_version },
               name := (ChatBotAgent.init e k d v n i).2.agent_name,
               instructions :=
                 (ChatBotAgent.init e k d v n i).2.instructions } ∧
      (ChatBotAgent.init e k d v n i).2.agent ≠ none ∧
      ((ChatBotAgent.init e k d v n i).2.get_response svc m).1.agent =
        (ChatBotAgent.init e k d v n i).2.agent := by
  refine ⟨rfl, by simp [init_eq], ?_⟩
  rw [get_response_preserves]
